import Mathlib

/-!
Shallow embedding of `src/lottus.py`: a menu-navigation engine for
text-based sessions.  Python dicts are modelled as structures; a field
whose key may be absent is an `Option`; a field whose key is always
written by the constructors but whose value may be Python `None` is an
`Option` as well, and where both distinctions matter (the `options` key
of a window) the type is `Option (Option _)` — `none` for an absent key,
`some none` for a key holding `None`, `some (some l)` for a list.
Python exceptions (subscripting `None`, missing keys) are modelled with
`Except String`; in-place dict mutation is modelled functionally (the
aliasing of window dicts shared with the registry/cache is not modelled,
no property here depends on it).  The `SessionManager` collaborator is
modelled by its `get` function; the single `save` call at the end of
`process_request` is modelled by returning the saved session as part of
the result.  `WindowCache.get` is an arbitrary function supplied in the
environment; `cache` writes are recorded in a list of puts returned with
the result.
-/

/-- The option dict built by `create_option` (`src/lottus.py:296`): the
string the client types, the displayed label, the target window name and
an advisory flag.  The `value` field models a `value` key that a
hand-written option dict may carry (`process_window` line 107 tests for
it); no constructor of the module ever writes it. -/
structure MenuOption where
  option : String
  display : String
  window : String
  value : Option String
  active : Bool
deriving DecidableEq, Repr

/-- The required dict built by `create_required` (`src/lottus.py:311`).
`window` is `none` when the key is absent (the misconfiguration of
`process_window` line 118); `in_options` is `none` when the key is
absent (line 103 tests key presence and value). -/
structure Required where
  var : String
  window : Option String
  in_options : Option Bool
  type : String
  length : String
deriving DecidableEq, Repr

/-- The window dict built by `create_window` (`src/lottus.py:275`).
`message`/`title` conflate an absent key with a `None` value (only
`window_response` distinguishes them and treats both as `None`);
`options` keeps both levels; `required` is `none` when the key is
absent (line 95 tests key presence). -/
structure Window where
  name : String
  message : Option String
  title : Option String
  options : Option (Option (List MenuOption))
  active : Bool
  window_type : String
  required : Option Required
deriving DecidableEq, Repr

/-- The session dict built by `create_session` (`src/lottus.py:250`).
`window` and `vars` hold Python `None` in a fresh session (`vars` models
the `variables` key of the source, whose name is a Lean keyword). -/
structure Session where
  session_nr : String
  cell_nr : String
  window : Option String
  vars : Option (List (String × String))
deriving DecidableEq, Repr

/-- The request dict built by `create_request` (`src/lottus.py:265`). -/
structure Request where
  session_nr : String
  cell_nr : String
  request_str : String
deriving DecidableEq, Repr

/-- The Lottus application object (`src/lottus.py:12`): initial window
name, static registry, dynamic resolvers registered with `add_window_rule`,
optional window cache (modelled by its `get` function, taking the window
name and an optional session number), and the session manager (modelled by
its `get` function). -/
structure Lottus where
  initial_window : String
  windows : List (String × Window)
  mapped_windows : List (String × (Session → Request → Window × Session))
  window_cache : Option (Option String → Option String → Option Window)
  session_manager : String → String → Option Session

/-- A recorded `window_cache.cache(window, session_nr)` call. -/
abbrev CachePut := Window × Option String

deriving instance DecidableEq for Except

/-- The Python `TypeError` raised when subscripting `None`. -/
def subscript_error : String := "TypeError: NoneType object is not subscriptable"

/-- The Python `KeyError` raised by `window[...]` when a key is absent. -/
def key_error : String := "KeyError"

/-- Python dict assignment `d[k] = v` on an association list: replaces the
value of an existing key in place, else appends the pair. -/
def varsInsert (vs : List (String × String)) (k v : String) : List (String × String) :=
  if vs.any (fun p => p.1 == k) then
    vs.map (fun p => if p.1 == k then (k, v) else p)
  else
    vs ++ [(k, v)]

/-- `create_session` (`src/lottus.py:250`): the Python defaults are
`window_name = None`, `variables = None`, passed explicitly here. -/
def create_session (session_nr cell_nr : String) (window_name : Option String)
    (vars : Option (List (String × String))) : Session :=
  { session_nr := session_nr, vars := vars, cell_nr := cell_nr, window := window_name }

/-- `create_request` (`src/lottus.py:265`). -/
def create_request (session_nr cell_nr request_str : String) : Request :=
  { session_nr := session_nr, cell_nr := cell_nr, request_str := request_str }

/-- `create_window` (`src/lottus.py:275`): note that the `required`
argument is accepted but never written into the resulting dict, and the
`options` value (possibly `None`) is stored under an always-present key.
Python defaults (`options=None`, `required=None`, `active=True`,
`window_type="FORM"`) are passed explicitly here. -/
def create_window (name : String) (title message : Option String)
    (options : Option (List MenuOption)) (required : Option Required)
    (active : Bool) (window_type : String) : Window :=
  { name := name, message := message, title := title, options := some options,
    active := active, window_type := window_type, required := none }

/-- `create_option` (`src/lottus.py:296`); Python default `active=True`
is passed explicitly.  No `value` key is written. -/
def create_option (option display window : String) (active : Bool) : MenuOption :=
  { option := option, display := display, window := window, value := none, active := active }

/-- `create_required` (`src/lottus.py:311`); Python defaults
(`in_options=False`, `var_type="numeric"`, `var_length="11"`) are passed
explicitly.  The `window` and `in_options` keys are always written. -/
def create_required (var window : String) (in_options : Bool)
    (var_type var_length : String) : Required :=
  { var := var, window := some window, in_options := some in_options,
    type := var_type, length := var_length }

/-- `create_error_window` (`src/lottus.py:328`). -/
def create_error_window (message : String) : Window :=
  create_window "ERROR" (some "ERROR") (some message) none none true "MESSAGE"

/-- `Lottus.get_window` (`src/lottus.py:147`): static registry lookup,
`none` on a miss.  A `None` window name is never a registry key. -/
def get_window (app : Lottus) (window_name : Option String) : Option Window :=
  match window_name with
  | none => none
  | some n => (app.windows.find? (fun p => p.1 == n)).map (fun p => p.2)

/-- Lookup in `mapped_windows`, modelling the Python tests
`name in self.mapped_windows` together with `self.mapped_windows[name]`. -/
def mapped_lookup (app : Lottus) (window_name : Option String) :
    Option (Session → Request → Window × Session) :=
  match window_name with
  | none => none
  | some n => (app.mapped_windows.find? (fun p => p.1 == n)).map (fun p => p.2)

/-- `Lottus.get_mapped_window` (`src/lottus.py:155`): applies the
registered processor; when none is registered the Python function
returns unbound locals, an `UnboundLocalError`. -/
def get_mapped_window (app : Lottus) (window_name : Option String)
    (session : Session) (request : Request) : Except String (Window × Session) :=
  match mapped_lookup app window_name with
  | some processor => .ok (processor session request)
  | none => .error "UnboundLocalError: window"

/-- `Lottus.get_selected_option` (`src/lottus.py:137`): first option of
the window whose `option` field equals the raw request string.  Raises
when the `options` key is absent (`KeyError`) or holds `None`
(`TypeError` iterating `None`). -/
def get_selected_option (window : Window) (request : Request) :
    Except String (Option MenuOption) :=
  match window.options with
  | none => .error key_error
  | some none => .error subscript_error
  | some (some options) => .ok (options.find? (fun s => s.option == request.request_str))

/-- Lines 76–90 of `Lottus.process_window`: resolution of the current
window named by `session.window` — session-scoped cache get, then
unscoped cache get, then the dynamic resolver (whose returned session the
source binds to the discarded local `old_session`, keeping the pre-call
session), then the static registry. -/
def resolve_actual_window (app : Lottus) (session : Session) (request : Request) :
    Option Window :=
  let actual_window_name := session.window
  let cached : Option Window :=
    match app.window_cache with
    | none => none
    | some cache =>
      match cache actual_window_name (some request.session_nr) with
      | some w => some w
      | none => cache actual_window_name none
  match cached with
  | some w => some w
  | none =>
    match mapped_lookup app actual_window_name with
    | some processor => some (processor session request).1
    | none => get_window app actual_window_name

/-- Python dict-variable assignment
`session['variables'][required['var']] = v` (raises when `variables`
holds `None`). -/
def session_set_var (session : Session) (k v : String) : Except String Session :=
  match session.vars with
  | none => .error subscript_error
  | some vs => .ok { session with vars := some (varsInsert vs k v) }

/-- Lines 107–110 of `process_window`: the value captured from a selected
option — its `value` field when that key is present, else its `option`
field. -/
def option_captured_value (o : MenuOption) : String :=
  match o.value with
  | some v => v
  | none => o.option

/-- `Lottus.process_window` (`src/lottus.py:70`): returns the produced
window (possibly `None`), the session, and the cache puts performed.
Line numbers in the branches refer to the source.  Note line 117
(`window = self.get_window(required['window'])`) sits outside the
`in_options` conditional, so it also overwrites the re-prompt window set
on line 113; and line 119 discards the error window it builds. -/
def process_window (app : Lottus) (session : Session) (request : Request) :
    Except String (Option Window × Session × List CachePut) :=
  match resolve_actual_window app session request with
  | none => .error subscript_error
  | some actual_window =>
    match actual_window.options with
    | none => .error key_error
    | some _options =>
      let required := actual_window.required
      let session_nr := request.session_nr
      let request_str := request.request_str
      match required with
      | some req =>
        match req.window with
        | some req_window =>
          if req.in_options = some true then
            match get_selected_option actual_window request with
            | .error e => .error e
            | .ok (some selected_option) =>
              match session_set_var session req.var (option_captured_value selected_option) with
              | .error e => .error e
              | .ok session =>
                .ok (get_window app (some req_window), session, [])
            | .ok none =>
              let actual_window := { actual_window with message := some "Please select a valid option" }
              let _window := some actual_window
              .ok (get_window app (some req_window), session, [])
          else
            match session_set_var session req.var request_str with
            | .error e => .error e
            | .ok session =>
              .ok (get_window app (some req_window), session, [])
        | none =>
          let _discarded := create_error_window "Error processing your request"
          .ok (none, session, [])
      | none =>
        match get_selected_option actual_window request with
        | .error e => .error e
        | .ok none =>
          let actual_window := { actual_window with message := some "Please select a valid option" }
          .ok (some actual_window, session, [])
        | .ok (some selected_option) =>
          match mapped_lookup app (some selected_option.window) with
          | some _ =>
            match get_mapped_window app (some selected_option.window) session request with
            | .error e => .error e
            | .ok (window, session) =>
              let puts : List CachePut :=
                match app.window_cache with
                | some _ => [(window, some session_nr)]
                | none => []
              .ok (some window, session, puts)
          | none =>
            .ok (get_window app (some selected_option.window), session, [])

/-- `Lottus.process_request` (`src/lottus.py:40`): fetches the session,
seeds a fresh one on a miss (resolving the initial window dynamically or
statically), else delegates to `process_window`; then performs
`session['window'] = window['name']` (a `TypeError` when the window is
`None`) and saves.  On success the returned session is exactly the one
passed to `session_manager.save`. -/
def process_request (app : Lottus) (request : Request) :
    Except String (Window × Session × List CachePut) :=
  let session_nr := request.session_nr
  let _request_str := request.request_str
  let cell_nr := request.cell_nr
  match app.session_manager session_nr cell_nr with
  | none =>
    let session := create_session session_nr cell_nr (some app.initial_window) none
    match mapped_lookup app (some app.initial_window) with
    | some _ =>
      match get_mapped_window app (some app.initial_window) session request with
      | .error e => .error e
      | .ok (window, session) =>
        let puts : List CachePut :=
          match app.window_cache with
          | some _ => [(window, some session_nr)]
          | none => []
        .ok (window, { session with window := some window.name }, puts)
    | none =>
      match get_window app (some app.initial_window) with
      | none => .error subscript_error
      | some window =>
        .ok (window, { session with window := some window.name }, [])
  | some session =>
    match process_window app session request with
    | .error e => .error e
    | .ok (none, _session, _puts) => .error subscript_error
    | .ok (some window, session, puts) =>
      .ok (window, { session with window := some window.name }, puts)

/-- The client-facing option pair built by `option_response`
(`src/lottus.py:345`). -/
structure OptionResponse where
  option : String
  value : String
deriving DecidableEq, Repr

/-- The client-facing response built by `window_response`
(`src/lottus.py:336`): only a message, a title and option pairs. -/
structure Response where
  message : Option String
  title : Option String
  options : List OptionResponse
deriving DecidableEq, Repr

/-- `option_response` (`src/lottus.py:345`): `value` is the option's
`display` field. -/
def option_response (o : MenuOption) : OptionResponse :=
  { option := o.option, value := o.display }

/-- `window_response` (`src/lottus.py:336`): `None` for an absent window;
message and title default to `None`; the options list comprehension
iterates `window['options']` and raises a `TypeError` when that key
holds `None` (as `create_window` leaves it for windows without options). -/
def window_response (window : Option Window) : Except String (Option Response) :=
  match window with
  | none => .ok none
  | some w =>
    match w.options with
    | none => .ok (some { message := w.message, title := w.title, options := [] })
    | some none => .error subscript_error
    | some (some options) =>
      .ok (some { message := w.message, title := w.title,
                  options := options.map option_response })

/-! ### Concrete environments for claim C1 -/

/-- Concrete option list entry for the C1 scenario. -/
def optC1 : MenuOption := create_option "1" "Maputo" "X" true

/-- Window `W` of the C1 scenario: a required in-options capture into
variable `city`, advancing to `NEXT`. -/
def wC1 : Window :=
  { name := "W", message := some "Choose a city", title := some "City",
    options := some (some [optC1]), active := true, window_type := "FORM",
    required := some (create_required "city" "NEXT" true "numeric" "11") }

/-- Target window `NEXT` of the C1 scenario. -/
def wNextC1 : Window :=
  create_window "NEXT" (some "Next") (some "You advanced") (some []) none true "FORM"

/-- Stored session of the C1 scenario, sitting at window `W`. -/
def sessC1 : Session := create_session "1001" "258840000001" (some "W") (some [])

/-- Application of the C1 scenario: static registry only, no cache, the
session manager stores exactly `sessC1`. -/
def appC1 : Lottus :=
  { initial_window := "W", windows := [("W", wC1), ("NEXT", wNextC1)],
    mapped_windows := [], window_cache := none,
    session_manager := fun sn cn =>
      if sn == "1001" && cn == "258840000001" then some sessC1 else none }

/-- Request of the C1 scenario: `"9"` matches no option of `W`. -/
def reqC1 : Request := create_request "1001" "258840000001" "9"

/-- Claim C1 (code bug): with the stored session at the required
in-options window `W` and the request string `"9"` matching no option,
the engine does NOT re-show `W` — line 117 of the source overwrites the
re-prompt window with the `required.window` target, so the call returns
the `NEXT` window, the saved session pointer moves to `NEXT`, and only
the variable capture is skipped.  The claim (re-show `W` with the
validation message, pointer unchanged) describes the intent visible in
lines 111–113, whose assignment is dead. -/
theorem c1_code_divergence :
    process_request appC1 reqC1 =
      .ok (wNextC1, { sessC1 with window := some "NEXT" }, []) ∧
    sessC1.window = some "W" ∧
    wNextC1.name = "NEXT" ∧
    wNextC1.message ≠ some "Please select a valid option" ∧
    ({ sessC1 with window := some "NEXT" } : Session).vars = some [] := by
  decide

/-! ### Concrete environments for claim C2 -/

/-- Concrete option of the C2 scenario: `option "1"`, `display "Maputo"`,
no `value` key. -/
def optC2 : MenuOption := create_option "1" "Maputo" "X" true

/-- Window `W` of the C2 scenario: required in-options capture into
`city`, advancing to `NEXT`. -/
def wC2 : Window :=
  { name := "W", message := some "Choose a city", title := some "City",
    options := some (some [optC2]), active := true, window_type := "FORM",
    required := some (create_required "city" "NEXT" true "numeric" "11") }

/-- Target window `NEXT` of the C2 scenario. -/
def wNextC2 : Window :=
  create_window "NEXT" (some "Next") (some "You advanced") (some []) none true "FORM"

/-- Stored session of the C2 scenario. -/
def sessC2 : Session := create_session "1002" "258840000002" (some "W") (some [])

/-- Application of the C2 scenario. -/
def appC2 : Lottus :=
  { initial_window := "W", windows := [("W", wC2), ("NEXT", wNextC2)],
    mapped_windows := [], window_cache := none,
    session_manager := fun sn cn =>
      if sn == "1002" && cn == "258840000002" then some sessC2 else none }

/-- Request of the C2 scenario: `"1"` matches `optC2`. -/
def reqC2 : Request := create_request "1002" "258840000002" "1"

/-- Claim C2 is false as stated: the matching option carries the display
value `"Maputo"`, yet the captured variable is the option value `"1"` —
the source (line 107) consults a `value` key, which no option built by
`create_option` ever has, never the `display` key. -/
theorem c2_counterexample :
    process_request appC2 reqC2 =
      .ok (wNextC2,
           { sessC2 with window := some "NEXT", vars := some [("city", "1")] }, []) ∧
    optC2.display = "Maputo" ∧
    ("1" : String) ≠ "Maputo" := by
  decide

/-- Claim C2, amended: on a required in-options window, when the request
matches an option (first match), the engine captures the option's
`value` field when that key is present, else the option's `option`
field — the `display` field is never consulted — and returns the
`required.window` target resolved in the static registry; this holds
when the session's variables hold a dict, while a stored session whose
variables hold `None` (exactly what the engine's own fresh-session path
persists) raises a `TypeError` at the capture instead. -/
theorem c2_amended :
    (∀ (app : Lottus) (session : Session) (request : Request)
        (w : Window) (opts : List MenuOption) (rq : Required) (tgt : String)
        (sel : MenuOption) (vs : List (String × String)),
       resolve_actual_window app session request = some w →
       w.options = some (some opts) →
       w.required = some rq →
       rq.window = some tgt →
       rq.in_options = some true →
       opts.find? (fun o => o.option == request.request_str) = some sel →
       session.vars = some vs →
       process_window app session request =
         .ok (get_window app (some tgt),
              { session with vars := some (varsInsert vs rq.var (option_captured_value sel)) },
              [])) ∧
    (∀ (app : Lottus) (session : Session) (request : Request)
        (w : Window) (opts : List MenuOption) (rq : Required) (tgt : String)
        (sel : MenuOption),
       resolve_actual_window app session request = some w →
       w.options = some (some opts) →
       w.required = some rq →
       rq.window = some tgt →
       rq.in_options = some true →
       opts.find? (fun o => o.option == request.request_str) = some sel →
       session.vars = none →
       process_window app session request = .error subscript_error) := by
  constructor
  · intro app session request w opts rq tgt sel vs hres hopts hreq htgt hio hfind hvars
    unfold process_window get_selected_option session_set_var
    simp [hres, hopts, hreq, htgt, hio, hfind, hvars]
  · intro app session request w opts rq tgt sel hres hopts hreq htgt hio hfind hvars
    unfold process_window get_selected_option session_set_var
    simp [hres, hopts, hreq, htgt, hio, hfind, hvars]

/-- Witness for `c2_amended` at the concrete C2 scenario: request `"1"`
captures `option_captured_value optC2` (that is, `"1"`) into `city` and
advances to `NEXT`. -/
theorem c2_amended_witness :
    process_window appC2 sessC2 reqC2 =
      .ok (get_window appC2 (some "NEXT"),
           { sessC2 with vars := some (varsInsert [] "city" (option_captured_value optC2)) },
           []) :=
  c2_amended.1 appC2 sessC2 reqC2 wC2 [optC2]
    (create_required "city" "NEXT" true "numeric" "11") "NEXT" optC2 []
    (by decide) (by decide) (by decide) (by decide) (by decide) (by decide) (by decide)

/-! ### Concrete environments for claim C3 -/

/-- Window `R` of the C3 scenario: its required dict lacks the `window`
key entirely. -/
def wC3 : Window :=
  { name := "R", message := some "Give a value", title := none,
    options := some (some []), active := true, window_type := "FORM",
    required := some { var := "v", window := none, in_options := some false,
                       type := "numeric", length := "11" } }

/-- Stored session of the C3 scenario, sitting at window `R`. -/
def sessC3 : Session := create_session "1003" "258840000003" (some "R") (some [])

/-- Application of the C3 scenario. -/
def appC3 : Lottus :=
  { initial_window := "R", windows := [("R", wC3)],
    mapped_windows := [], window_cache := none,
    session_manager := fun sn cn =>
      if sn == "1003" && cn == "258840000003" then some sessC3 else none }

/-- Request of the C3 scenario. -/
def reqC3 : Request := create_request "1003" "258840000003" "7"

/-- Claim C3 (code bug): when the current window declares `required`
without a `window` key, line 119 of the source builds the error window
and discards it, so `process_window` hands back no window at all and
`process_request` then raises a `TypeError` subscripting `None` — the
client never receives the best-effort `ERROR`/`MESSAGE` window the claim
(and the discarded `create_error_window` call) describes. -/
theorem c3_code_divergence :
    process_window appC3 sessC3 reqC3 = .ok (none, sessC3, []) ∧
    process_request appC3 reqC3 = .error subscript_error ∧
    (create_error_window "Error processing your request").name = "ERROR" ∧
    (create_error_window "Error processing your request").window_type = "MESSAGE" := by
  decide

/-- Claim C7, amended: on a required window whose `in_options` is not
`true` (false or absent), with a `required.window` target, any request
string is captured verbatim into the session variable and the returned
window is the target looked up in the static registry — provided the
stored session's variables hold a dict; a stored session whose
variables hold `None` (exactly what the engine's own fresh-session path
persists) raises a `TypeError` at line 115 instead of capturing. -/
theorem c7_amended :
    (∀ (app : Lottus) (session : Session) (request : Request)
        (w : Window) (opts : Option (List MenuOption)) (rq : Required) (tgt : String)
        (vs : List (String × String)),
       resolve_actual_window app session request = some w →
       w.options = some opts →
       w.required = some rq →
       rq.window = some tgt →
       rq.in_options ≠ some true →
       session.vars = some vs →
       process_window app session request =
         .ok (get_window app (some tgt),
              { session with vars := some (varsInsert vs rq.var request.request_str) },
              [])) ∧
    (∀ (app : Lottus) (session : Session) (request : Request)
        (w : Window) (opts : Option (List MenuOption)) (rq : Required) (tgt : String),
       resolve_actual_window app session request = some w →
       w.options = some opts →
       w.required = some rq →
       rq.window = some tgt →
       rq.in_options ≠ some true →
       session.vars = none →
       process_window app session request = .error subscript_error) := by
  constructor
  · intro app session request w opts rq tgt vs hres hopts hreq htgt hio hvars
    unfold process_window session_set_var
    simp [hres, hopts, hreq, htgt, hio, hvars]
  · intro app session request w opts rq tgt hres hopts hreq htgt hio hvars
    unfold process_window session_set_var
    simp [hres, hopts, hreq, htgt, hio, hvars]

/-! ### Concrete environments for claim C7 -/

/-- Window `W` of the C7 scenario: required free-text capture of `age`,
advancing to `NEXT`. -/
def wC7 : Window :=
  { name := "W", message := some "Your age", title := some "Age",
    options := some (some []), active := true, window_type := "FORM",
    required := some (create_required "age" "NEXT" false "numeric" "11") }

/-- Target window `NEXT` of the C7 scenario. -/
def wNextC7 : Window :=
  create_window "NEXT" (some "Next") (some "Thanks") (some []) none true "FORM"

/-- Stored session of the C7 scenario. -/
def sessC7 : Session := create_session "1007" "258840000007" (some "W") (some [])

/-- Application of the C7 scenario. -/
def appC7 : Lottus :=
  { initial_window := "W", windows := [("W", wC7), ("NEXT", wNextC7)],
    mapped_windows := [], window_cache := none,
    session_manager := fun sn cn =>
      if sn == "1007" && cn == "258840000007" then some sessC7 else none }

/-- Request of the C7 scenario: free text `"34"`. -/
def reqC7 : Request := create_request "1007" "258840000007" "34"

/-- Stored session of the C7 counterexample: it sits at the free-text
required window `W` but its variables hold `None` — the exact shape
`create_session` builds and `process_request` persists on a first turn. -/
def sessC7b : Session := create_session "1070" "258840000070" (some "W") none

/-- Application of the C7 counterexample scenario. -/
def appC7b : Lottus :=
  { initial_window := "W", windows := [("W", wC7), ("NEXT", wNextC7)],
    mapped_windows := [], window_cache := none,
    session_manager := fun sn cn =>
      if sn == "1070" && cn == "258840000070" then some sessC7b else none }

/-- Request of the C7 counterexample scenario. -/
def reqC7b : Request := create_request "1070" "258840000070" "34"

/-- Claim C7 is false as stated: a stored session whose variables hold
`None` — the very shape the engine's own fresh-session path persists —
reaches line 115 (`session['variables'][required['var']] = request_str`)
and raises a `TypeError`; nothing is captured and no window is returned. -/
theorem c7_counterexample :
    process_request appC7b reqC7b = .error subscript_error ∧
    sessC7b.vars = none := by
  decide

/-- Witness for `c7_amended`: with the stored session's variables an
actual (empty) dict, the concrete request `"34"` is captured verbatim
into `age` and the session advances to `NEXT`. -/
theorem c7_amended_witness :
    process_window appC7 sessC7 reqC7 =
      .ok (get_window appC7 (some "NEXT"),
           { sessC7 with vars := some (varsInsert [] "age" "34") },
           []) :=
  c7_amended.1 appC7 sessC7 reqC7 wC7 (some [])
    (create_required "age" "NEXT" false "numeric" "11") "NEXT" []
    (by decide) (by decide) (by decide) (by decide) (by decide) (by decide)

/-- Claim C4: whenever `process_request` returns normally, the session it
passed to `session_manager.save` (returned here as the session component
of the result) has its `window` field equal to the name of the returned
window — on the fresh-session paths and on the stored-session path alike. -/
theorem c4_saved_pointer (app : Lottus) (request : Request)
    (w : Window) (s : Session) (p : List CachePut)
    (h : process_request app request = .ok (w, s, p)) :
    s.window = some w.name := by
  revert h
  unfold process_request get_mapped_window
  dsimp only
  repeat' split
  all_goals intro h
  all_goals
    first
      | exact Except.noConfusion h
      | (simp only [Except.ok.injEq, Prod.mk.injEq] at h
         obtain ⟨h1, h2, -⟩ := h
         subst h1
         subst h2
         rfl)

/-! ### Concrete environment for the claim C4 witness -/

/-- Initial window of the C4 scenario. -/
def wHomeC4 : Window :=
  create_window "HOME" (some "Home") (some "Welcome") (some []) none true "FORM"

/-- Application of the C4 scenario: empty session store, static initial
window. -/
def appC4 : Lottus :=
  { initial_window := "HOME", windows := [("HOME", wHomeC4)],
    mapped_windows := [], window_cache := none,
    session_manager := fun _ _ => none }

/-- Request of the C4 scenario (a first turn). -/
def reqC4 : Request := create_request "1004" "258840000004" "x"

/-- The session `process_request` saves in the C4 scenario. -/
def savedC4 : Session := create_session "1004" "258840000004" (some "HOME") none

/-- Witness for `c4_saved_pointer` at a concrete first-turn request. -/
theorem c4_witness : savedC4.window = some wHomeC4.name :=
  c4_saved_pointer appC4 reqC4 wHomeC4 savedC4 [] (by decide)

/-! ### Concrete environments for claim C5 -/

/-- Application of the C5 scenario: the configured initial window `HOME`
exists nowhere — not in the registry, not as a resolver, and there is no
cache. -/
def appC5 : Lottus :=
  { initial_window := "HOME", windows := [], mapped_windows := [],
    window_cache := none, session_manager := fun _ _ => none }

/-- Request of the C5 scenario. -/
def reqC5 : Request := create_request "1005" "258840000005" "1"

/-- Claim C5 is false as stated: with the initial window name absent from
every source, `process_request` does not return an absent response — the
absent window reaches `session['window'] = window['name']` (line 65) and
the call raises a `TypeError`. -/
theorem c5_counterexample :
    process_request appC5 reqC5 = .error subscript_error := by decide

/-- Claim C5, amended: an unresolvable window name yields an absent
window internally, and `process_request` then raises a `TypeError`
(subscripting `None`) instead of returning an absent response — shown on
the fresh-session path (initial window unknown) and on the
stored-session path (current window unknown, where line 92 subscripts
the absent window). -/
theorem c5_amended :
    (∀ (app : Lottus) (request : Request),
       app.session_manager request.session_nr request.cell_nr = none →
       mapped_lookup app (some app.initial_window) = none →
       get_window app (some app.initial_window) = none →
       process_request app request = .error subscript_error) ∧
    (∀ (app : Lottus) (session : Session) (request : Request),
       app.session_manager request.session_nr request.cell_nr = some session →
       resolve_actual_window app session request = none →
       process_request app request = .error subscript_error) := by
  constructor
  · intro app request h1 h2 h3
    unfold process_request
    simp [h1, h2, h3]
  · intro app session request h1 h2
    unfold process_request process_window
    simp [h1, h2]

/-- Stored session of the C5 witness scenario, pointing at a window name
`GONE` that no source can resolve. -/
def sessC5b : Session := create_session "1005" "258840000055" (some "GONE") (some [])

/-- Application of the C5 witness scenario. -/
def appC5b : Lottus :=
  { initial_window := "HOME", windows := [], mapped_windows := [],
    window_cache := none,
    session_manager := fun sn cn =>
      if sn == "1005" && cn == "258840000055" then some sessC5b else none }

/-- Request of the C5 witness scenario. -/
def reqC5b : Request := create_request "1005" "258840000055" "1"

/-- Witness for `c5_amended` on the stored-session path. -/
theorem c5_witness : process_request appC5b reqC5b = .error subscript_error :=
  c5_amended.2 appC5b sessC5b reqC5b (by decide) (by decide)

/-- Claim C6: `process_window` resolves the current window (its first
step, `resolve_actual_window`) as the first non-empty result of: the
cache scoped to the request's session number, the cache unscoped, the
dynamic resolver, the static registry; in particular a session-scoped
cache hit wins even when a resolver is registered under the same name. -/
theorem c6_resolution_order (app : Lottus) (session : Session) (request : Request)
    (c : Option String → Option String → Option Window)
    (hc : app.window_cache = some c) :
    (resolve_actual_window app session request =
       ((c session.window (some request.session_nr)).orElse
          (fun _ => c session.window none)).orElse
          (fun _ =>
            match mapped_lookup app session.window with
            | some processor => some (processor session request).1
            | none => get_window app session.window)) ∧
    (∀ w, c session.window (some request.session_nr) = some w →
       resolve_actual_window app session request = some w) := by
  constructor
  · cases h1 : c session.window (some request.session_nr) with
    | some w => simp [resolve_actual_window, hc, h1, Option.orElse]
    | none =>
      cases h2 : c session.window none with
      | some w => simp [resolve_actual_window, hc, h1, h2, Option.orElse]
      | none => simp [resolve_actual_window, hc, h1, h2, Option.orElse]
  · intro w hw
    simp [resolve_actual_window, hc, hw]

/-! ### Concrete environments for claim C6 -/

/-- The window the C6 cache holds for name `M`, session `1006`. -/
def wCachedC6 : Window :=
  create_window "M" (some "Cached") (some "From the cache") (some []) none true "FORM"

/-- The window the C6 registry holds under `M`. -/
def wRegC6 : Window :=
  create_window "M" (some "Registry") (some "From the registry") (some []) none true "FORM"

/-- The window the C6 resolver produces for `M`. -/
def wMappedC6 : Window :=
  create_window "M" (some "Mapped") (some "From the resolver") (some []) none true "FORM"

/-- Session-scoped cache of the C6 scenario. -/
def cacheC6 : Option String → Option String → Option Window :=
  fun n sn =>
    if n == some "M" && sn == some "1006" then some wCachedC6 else none

/-- Stored session of the C6 scenario, at window `M`. -/
def sessC6 : Session := create_session "1006" "258840000006" (some "M") (some [])

/-- Application of the C6 scenario: `M` is simultaneously in the
session-scoped cache, registered as a dynamic resolver, and in the
static registry. -/
def appC6 : Lottus :=
  { initial_window := "M", windows := [("M", wRegC6)],
    mapped_windows := [("M", fun s _ => (wMappedC6, s))],
    window_cache := some cacheC6,
    session_manager := fun sn cn =>
      if sn == "1006" && cn == "258840000006" then some sessC6 else none }

/-- Request of the C6 scenario. -/
def reqC6 : Request := create_request "1006" "258840000006" "1"

/-- Witness for `c6_resolution_order`: the session-scoped cache hit is
used even though a resolver and a registry entry exist under `M`. -/
theorem c6_witness : resolve_actual_window appC6 sessC6 reqC6 = some wCachedC6 :=
  (c6_resolution_order appC6 sessC6 reqC6 cacheC6 rfl).2 wCachedC6 (by decide)

/-! ### Concrete environments for claim C8 -/

/-- Window produced by the C8 current-window resolver. -/
def wC8 : Window :=
  { name := "M", message := some "menu", title := none,
    options := some (some []), active := true, window_type := "FORM",
    required := none }

/-- The C8 resolver: returns `wC8` together with a session whose
variables it has visibly changed. -/
def resolverC8 : Session → Request → Window × Session :=
  fun s _ => (wC8, { s with vars := some [("touched", "yes")] })

/-- Stored session of the C8 scenario, at window `M`, empty variables. -/
def sessC8 : Session := create_session "1008" "258840000008" (some "M") (some [])

/-- Application of the C8 scenario: `M` resolves only dynamically. -/
def appC8 : Lottus :=
  { initial_window := "M", windows := [], mapped_windows := [("M", resolverC8)],
    window_cache := none,
    session_manager := fun sn cn =>
      if sn == "1008" && cn == "258840000008" then some sessC8 else none }

/-- Request of the C8 scenario. -/
def reqC8 : Request := create_request "1008" "258840000008" "x"

/-- Claim C8 is false as stated: resolving the current window of a stored
session through `resolverC8` discards the session the resolver returned
(line 87 binds it to the unused `old_session`), so the engine persists
the pre-call session with its empty variables, not the resolver's
session with `touched = yes`. -/
theorem c8_counterexample :
    process_request appC8 reqC8 =
      .ok ({ wC8 with message := some "Please select a valid option" },
           { sessC8 with window := some "M" }, []) ∧
    (resolverC8 sessC8 reqC8).2.vars = some [("touched", "yes")] ∧
    ({ sessC8 with window := some "M" } : Session).vars = some [] ∧
    (some [] : Option (List (String × String))) ≠ some [("touched", "yes")] := by
  decide

/-- Claim C8, amended: the engine propagates the session returned by a
dynamic resolver on the fresh-session initial-window path and on the
selected-option path, but on the current-window path of a stored session
it discards the resolver's session and continues with the pre-call
session (shown on the no-match branch, which returns that pre-call
session unchanged). -/
theorem c8_amended :
    (∀ (app : Lottus) (request : Request)
        (f : Session → Request → Window × Session) (w : Window) (s : Session),
       app.session_manager request.session_nr request.cell_nr = none →
       mapped_lookup app (some app.initial_window) = some f →
       f (create_session request.session_nr request.cell_nr (some app.initial_window) none)
           request = (w, s) →
       process_request app request =
         .ok (w, { s with window := some w.name },
              match app.window_cache with
              | some _ => [(w, some request.session_nr)]
              | none => [])) ∧
    (∀ (app : Lottus) (session : Session) (request : Request)
        (aw : Window) (opts : List MenuOption) (sel : MenuOption)
        (f : Session → Request → Window × Session) (w : Window) (s : Session),
       resolve_actual_window app session request = some aw →
       aw.options = some (some opts) →
       aw.required = none →
       opts.find? (fun o => o.option == request.request_str) = some sel →
       mapped_lookup app (some sel.window) = some f →
       f session request = (w, s) →
       process_window app session request =
         .ok (some w, s,
              match app.window_cache with
              | some _ => [(w, some request.session_nr)]
              | none => [])) ∧
    (∀ (app : Lottus) (session : Session) (request : Request)
        (f : Session → Request → Window × Session) (w : Window) (s2 : Session)
        (opts : List MenuOption),
       app.window_cache = none →
       mapped_lookup app session.window = some f →
       f session request = (w, s2) →
       w.required = none →
       w.options = some (some opts) →
       opts.find? (fun o => o.option == request.request_str) = none →
       process_window app session request =
         .ok (some { w with message := some "Please select a valid option" }, session, [])) := by
  refine ⟨?_, ?_, ?_⟩
  · intro app request f w s h1 h2 h3
    unfold process_request get_mapped_window
    simp [h1, h2, h3]
  · intro app session request aw opts sel f w s hres hopts hreq hfind hmap hf
    unfold process_window get_selected_option get_mapped_window
    simp [hres, hopts, hreq, hfind, hmap, hf]
  · intro app session request f w s2 opts h1 h2 h3 h4 h5 h6
    have hres : resolve_actual_window app session request = some w := by
      unfold resolve_actual_window
      simp [h1, h2, h3]
    unfold process_window get_selected_option
    simp [hres, h4, h5, h6]

/-- Window produced by the C8 witness resolver for the initial window. -/
def wIC8 : Window :=
  create_window "I" (some "Init") (some "Hello") (some []) none true "FORM"

/-- The C8 witness resolver for the initial window: visibly rewrites the
fresh session's variables. -/
def resolverIC8 : Session → Request → Window × Session :=
  fun s _ => (wIC8, { s with vars := some [("k", "v")] })

/-- Application of the C8 witness scenario. -/
def appC8w : Lottus :=
  { initial_window := "I", windows := [], mapped_windows := [("I", resolverIC8)],
    window_cache := none, session_manager := fun _ _ => none }

/-- Request of the C8 witness scenario (a first turn). -/
def reqC8w : Request := create_request "1080" "258840000080" "x"

/-- Witness for `c8_amended` on the initial-window path: the resolver's
session (variables `k = v`) is the one saved. -/
theorem c8_witness :
    process_request appC8w reqC8w =
      .ok (wIC8,
           { create_session "1080" "258840000080" (some "I") none with
             vars := some [("k", "v")], window := some wIC8.name },
           []) :=
  c8_amended.1 appC8w reqC8w resolverIC8 wIC8
    { create_session "1080" "258840000080" (some "I") none with vars := some [("k", "v")] }
    rfl rfl rfl

/-- Claim C9 is false as stated: a window whose `options` key holds
`None` — as `create_window` leaves it whenever no options are passed,
including every `create_error_window` result — cannot be projected; the
list comprehension of `window_response` iterates `None` and raises a
`TypeError` instead of producing a response. -/
theorem c9_counterexample :
    window_response (some (create_error_window "boom")) = .error subscript_error := by
  decide

/-- Claim C9, amended: for every window whose `options` key, when
present, holds an actual list, the projection is exactly a message, a
title and the ordered `(option, value)` pairs with `value` the option's
`display`; the projection is insensitive to the window's `name`,
`active`, `type` and `required` fields; an absent window projects to an
absent response.  Windows whose `options` key holds `None` raise
instead (see `c9_counterexample`). -/
theorem c9_amended :
    (∀ w : Window, w.options ≠ some none →
       window_response (some w) =
         .ok (some { message := w.message, title := w.title,
                     options :=
                       match w.options with
                       | some (some options) =>
                           options.map (fun o => { option := o.option, value := o.display })
                       | _ => [] })) ∧
    (∀ (w : Window) (n : String) (a : Bool) (ty : String) (rq : Option Required),
       window_response
           (some { w with name := n, active := a, window_type := ty, required := rq }) =
         window_response (some w)) ∧
    window_response none = .ok none := by
  refine ⟨?_, ?_, rfl⟩
  · intro w h
    unfold window_response
    cases hw : w.options with
    | none => simp [hw]
    | some o =>
      cases o with
      | none => exact absurd hw h
      | some options => simp [hw, option_response]
  · intro w n a ty rq
    rcases w with ⟨n0, m0, t0, o0, a0, ty0, r0⟩
    rcases o0 with - | o1
    · rfl
    · rcases o1 with - | l
      · rfl
      · rfl

/-- Concrete window of the C9 witness. -/
def wC9 : Window :=
  { name := "V", message := some "pick one", title := some "Menu",
    options := some (some [create_option "1" "One" "X" true]), active := true,
    window_type := "FORM", required := none }

/-- Witness for `c9_amended`: the projection of `wC9` carries only its
message, title and `(option, display)` pairs. -/
theorem c9_witness :
    window_response (some wC9) =
      .ok (some { message := some "pick one", title := some "Menu",
                  options := [{ option := "1", value := "One" }] }) :=
  c9_amended.1 wC9 (by decide)

/-- Claim C10: `create_window` pins every field of the result — and in
particular discards its `required` argument entirely, so the result
carries no `required` key and equals the window built with no required
spec at all; consequently `process_window` treats every
`create_window`-built window through its no-required branch. -/
theorem c10_create_window_drops_required (n : String) (t m : Option String)
    (o : Option (List MenuOption)) (r : Option Required) (a : Bool) (ty : String) :
    (create_window n t m o r a ty).required = none ∧
    create_window n t m o r a ty = create_window n t m o none a ty ∧
    (create_window n t m o r a ty).name = n ∧
    (create_window n t m o r a ty).message = m ∧
    (create_window n t m o r a ty).title = t ∧
    (create_window n t m o r a ty).options = some o ∧
    (create_window n t m o r a ty).active = a ∧
    (create_window n t m o r a ty).window_type = ty :=
  ⟨rfl, rfl, rfl, rfl, rfl, rfl, rfl, rfl⟩
